import Mathlib

/-!
Verification development for the smart-session-planner suggestion engine.

Shallow embedding conventions:
* Instants are naive local wall-clock times modelled as `Int` milliseconds
  since an epoch whose day 0 is a Sunday (so `weekdayOf` matches the
  source's `Date.getDay`, with 0 = Sunday).  All arithmetic mirrors the
  JavaScript source, which works in milliseconds (`getTime()`).
* Durations are minutes (`Int`), multiplied by 60000 exactly as in the source.
* JavaScript floating-point numbers are modelled as exact rationals `ℚ`;
  the source only adds, subtracts, multiplies and divides, so `ℚ` is a
  faithful model on the inputs considered here.
* Human-readable reason strings are modelled by the inductive `Reason`,
  one constructor per distinct template string in the source, carrying the
  interpolated values; this abstracts only the decimal rendering
  (`toFixed`), not the identity, order or emission condition of a reason.
* The Prisma store is modelled as plain lists of records; `findUnique`
  becomes `List.find?`, `findMany` with a `where` clause becomes
  `List.filter`, and `orderBy` becomes a stable sort (V8's `Array.sort`
  is stable, and a stable sort is uniquely determined by the comparator).
* The pinned demo clock (`new Date()` / `getCurrentDate()`) is passed as an
  explicit `now` parameter, one consistent instant per request.
-/

namespace SSP

/-- Milliseconds in a day, as used by the source's `1000 * 60 * 60 * 24`. -/
def msPerDay : Int := 86400000

/-- Midnight of the day containing `t` (the source's `setHours(0,0,0,0)`). -/
def dayFloor (t : Int) : Int := (t.fdiv msPerDay) * msPerDay

/-- Day of week of the instant `t`, 0 = Sunday (the source's `getDay()`;
epoch day 0 is a Sunday by modelling convention). -/
def weekdayOf (t : Int) : Nat := ((t.fdiv msPerDay) % 7).toNat

/-- Hour of day of the instant `t` (the source's `getHours()`). -/
def hourOf (t : Int) : Nat := ((t.fdiv 3600000) % 24).toNat

/-- Difference from `fromT` to `toT` in (fractional) days, the source's
`(a.getTime() - b.getTime()) / (1000 * 60 * 60 * 24)`. -/
def daysBetween (fromT toT : Int) : ℚ := ((toT - fromT : Int) : ℚ) / 86400000

/-- The source's `Math.abs` on numbers, written out so that it evaluates
by kernel reduction; `qabs_eq_abs` identifies it with `|·|`. -/
def qabs (q : ℚ) : ℚ := if q < 0 then -q else q

/-- The half-open interval overlap test of §4.1: true iff
`startA < endB && startB < endA`.  In the source this comparison appears
inline in `hasConflict` (suggestions route) and `checkConflicts`
(sessions route). -/
def intervalsOverlap (startA endA startB endB : Int) : Bool :=
  decide (startA < endB) && decide (startB < endA)

-- ==================== DATA MODEL ====================

/-- A session record as read from the store with its session type included
(`include: { sessionType: true }`): `priority` and `typeName` are the
included `sessionType.priority` / `sessionType.name`. -/
structure SessionRec where
  id : String
  typeId : String
  scheduledAt : Int
  duration : Int
  completed : Bool
  priority : Int
  typeName : String
deriving DecidableEq, Repr

/-- A session type record. -/
structure SessionTypeRec where
  id : String
  name : String
  category : String
  priority : Int
deriving DecidableEq, Repr

/-- A weekly availability window.  The source stores `startTime`/`endTime`
as "HH:MM" strings; they are modelled by their parsed value in minutes
after midnight (`hours * 60 + minutes`), which is all
`timeStringToDate` extracts from them. -/
structure AvailabilityWindow where
  id : String
  dayOfWeek : Nat
  startMin : Nat
  endMin : Nat
deriving DecidableEq, Repr

/-- A candidate time slot (the suggestion route's `TimeSlot`).  The source
field `end` is a Lean keyword and is rendered `endTime`. -/
structure TimeSlot where
  start : Int
  endTime : Int
  dayOfWeek : Nat
deriving DecidableEq, Repr

/-- One reason string of the scorer, abstracted to a constructor per
template, carrying the interpolated values. -/
inductive Reason where
  | highPriority (priority : Int)
  | goodSpacing (daysSince : ℚ) (typeName : String)
  | firstTimeScheduling
  | usualSpacingPattern (averageSpacingDays : ℚ)
  | noOtherSessionsToday
  | dayAlreadyHasSessions (count : Nat)
  | highPriorityLoad (load : Int)
  | morningSlot
  | afternoonSlot
  | goodBufferTime
deriving DecidableEq, Repr

/-- A scored slot (the suggestion route's `ScoredSlot`). -/
structure ScoredSlot where
  start : Int
  endTime : Int
  dayOfWeek : Nat
  score : ℚ
  reasons : List Reason
deriving DecidableEq, Repr

/-- The suggestion route's `SessionTypeStats`. -/
structure SessionTypeStats where
  id : String
  name : String
  category : String
  priority : Int
  lastScheduled : Option Int
  upcomingCount : Nat
  completedCount : Nat
  averageSpacingDays : Option ℚ
deriving DecidableEq, Repr

-- ==================== CONFLICT DETECTION ====================

/-- The suggestion route's `hasConflict`: does the slot overlap any
existing session's interval `[scheduledAt, scheduledAt + duration)`? -/
def hasConflict (slot : TimeSlot) (existingSessions : List SessionRec) : Bool :=
  existingSessions.any fun session =>
    let sessionStart := session.scheduledAt
    let sessionEnd := sessionStart + session.duration * 60000
    -- Overlap occurs if: slot starts before session ends AND slot ends after session starts
    decide (slot.start < sessionEnd) && decide (sessionStart < slot.endTime)

/-- An entry of `conflictingSessions` in the sessions route's
`checkConflicts` response. -/
structure ConflictInfo where
  id : String
  sessionType : String
  scheduledAt : Int
  duration : Int
deriving DecidableEq, Repr

/-- The sessions route's `checkConflicts`: filters all sessions (optionally
excluding one id) down to those overlapping `[scheduledAt,
scheduledAt + duration)` and reports the flag plus the mapped list. -/
def checkConflicts (sessions : List SessionRec) (scheduledAt : Int) (duration : Int)
    (excludeSessionId : Option String) : Bool × List ConflictInfo :=
  let sessionEnd := scheduledAt + duration * 60000
  let allSessions : List SessionRec := match excludeSessionId with
    | some e => sessions.filter fun s => decide (s.id ≠ e)
    | none => sessions
  let conflictingSessions := allSessions.filter fun session =>
    let existingStart := session.scheduledAt
    let existingEnd := existingStart + session.duration * 60000
    decide (existingStart < sessionEnd) && decide (scheduledAt < existingEnd)
  (decide (conflictingSessions ≠ []),
   conflictingSessions.map fun s =>
     { id := s.id, sessionType := s.typeName, scheduledAt := s.scheduledAt, duration := s.duration })

-- ==================== ERROR TAXONOMY ====================

/-- The suggestion route's 400-class validation messages, one constructor
per distinct message string. -/
inductive ValidationMsg where
  | missingSessionTypeId
  | durationOutOfRange
deriving DecidableEq, Repr

/-- Error classification of the suggestion pipeline: `validation` is a
400-class rejection; `notFound` is the thrown
`Error('Session type not found')`. -/
inductive SuggestError where
  | validation (msg : ValidationMsg)
  | notFound
deriving DecidableEq, Repr

-- ==================== STABLE SORTS ====================

/-- Insert into a list sorted by descending `score`, after every element of
`score ≥ a.score` (so earlier-generated slots keep winning ties). -/
def insertSlotDesc (a : ScoredSlot) : List ScoredSlot → List ScoredSlot
  | [] => [a]
  | b :: l => if b.score ≤ a.score then a :: b :: l else b :: insertSlotDesc a l

/-- Stable sort by descending `score`; models the source's stable
`Array.sort((a, b) => b.score - a.score)`, whose output is uniquely
determined by sortedness plus stability. -/
def sortSlots : List ScoredSlot → List ScoredSlot
  | [] => []
  | a :: l => insertSlotDesc a (sortSlots l)

/-- Insert into a list sorted by descending `scheduledAt`. -/
def insertSessionDesc (a : SessionRec) : List SessionRec → List SessionRec
  | [] => [a]
  | b :: l =>
    if b.scheduledAt ≤ a.scheduledAt then a :: b :: l else b :: insertSessionDesc a l

/-- Stable sort by descending `scheduledAt` (Prisma's
`orderBy: { scheduledAt: 'desc' }`). -/
def sortSessionsDesc : List SessionRec → List SessionRec
  | [] => []
  | a :: l => insertSessionDesc a (sortSessionsDesc l)

/-- Insert into a list sorted by ascending `scheduledAt`. -/
def insertSessionAsc (a : SessionRec) : List SessionRec → List SessionRec
  | [] => [a]
  | b :: l =>
    if a.scheduledAt ≤ b.scheduledAt then a :: b :: l else b :: insertSessionAsc a l

/-- Stable sort by ascending `scheduledAt` (the source's
`sort((a, b) => a.scheduledAt - b.scheduledAt)` on completed sessions). -/
def sortSessionsAsc : List SessionRec → List SessionRec
  | [] => []
  | a :: l => insertSessionAsc a (sortSessionsAsc l)

-- ==================== SESSION TYPE STATISTICS ====================

/-- Sum of day-deltas between chronologically consecutive sessions (the
`totalSpacing` accumulation loop of `getSessionTypeStats`). -/
def totalSpacing : List SessionRec → ℚ
  | a :: b :: rest => daysBetween a.scheduledAt b.scheduledAt + totalSpacing (b :: rest)
  | _ => 0

/-- The suggestion route's `getSessionTypeStats`: resolves the type
(throwing `Session type not found` when absent), takes its sessions in
descending `scheduledAt` order, and derives last-scheduled instant,
upcoming/completed counts and average completed-session spacing. -/
def getSessionTypeStats (sessionTypes : List SessionTypeRec) (sessions : List SessionRec)
    (sessionTypeId : String) (now : Int) : Except SuggestError SessionTypeStats :=
  match sessionTypes.find? (fun t => decide (t.id = sessionTypeId)) with
  | none => .error .notFound
  | some sessionType =>
    let typeSessions := sortSessionsDesc (sessions.filter fun s => decide (s.typeId = sessionTypeId))
    let upcomingSessions := typeSessions.filter fun s => decide (now ≤ s.scheduledAt) && !s.completed
    let completedSessions := typeSessions.filter fun s => s.completed
    let lastScheduled := typeSessions.head?.map (·.scheduledAt)
    let averageSpacingDays : Option ℚ :=
      if 2 ≤ completedSessions.length then
        let sortedCompleted := sortSessionsAsc completedSessions
        some (totalSpacing sortedCompleted / ((sortedCompleted.length - 1 : Nat) : ℚ))
      else none
    .ok { id := sessionType.id, name := sessionType.name, category := sessionType.category,
          priority := sessionType.priority, lastScheduled := lastScheduled,
          upcomingCount := upcomingSessions.length,
          completedCount := completedSessions.length,
          averageSpacingDays := averageSpacingDays }

-- ==================== CANDIDATE SLOT GENERATION ====================

/-- The suggestion route's `timeStringToDate`: the next occurrence of
`dayOfWeek` at the given time-of-day, counting from `baseDate` (inclusive).
The source mutates a copy of `baseDate` with `setDate` then
`setHours(h, m, 0, 0)`; in the naive-time model that is day-flooring plus
whole-day and minute offsets. -/
def timeStringToDate (timeMin : Nat) (dayOfWeek : Nat) (baseDate : Int) : Int :=
  let currentDay : Int := weekdayOf baseDate
  let daysUntil := ((dayOfWeek : Int) - currentDay + 7) % 7
  dayFloor baseDate + daysUntil * msPerDay + (timeMin : Int) * 60000

/-- The inner `while` loop of `generateCandidateSlots`: tile a window from
`slotStart` in 30-minute steps, emitting `[t, t + duration)` for every tick
with `t + duration ≤ windowEnd`, keeping only ticks strictly after `now`. -/
def tileWindow (windowEnd sessionDuration now : Int) (dayOfWeek : Nat)
    (slotStart : Int) : List TimeSlot :=
  if h : slotStart + sessionDuration * 60000 ≤ windowEnd then
    let slotEnd := slotStart + sessionDuration * 60000
    if now < slotStart then
      { start := slotStart, endTime := slotEnd, dayOfWeek := dayOfWeek } ::
        tileWindow windowEnd sessionDuration now dayOfWeek (slotStart + 30 * 60000)
    else
      tileWindow windowEnd sessionDuration now dayOfWeek (slotStart + 30 * 60000)
  else []
termination_by (windowEnd - sessionDuration * 60000 - slotStart + 1800000).toNat
decreasing_by all_goals omega

/-- The suggestion route's `generateCandidateSlots`: for each day offset in
the horizon, select the windows for that weekday, realize their concrete
bounds on that date, skip windows already fully in the past, and tile the
rest at the fixed 30-minute step. -/
def generateCandidateSlots (windows : List AvailabilityWindow) (now : Int)
    (daysAhead sessionDuration : Int) : List TimeSlot :=
  let today := dayFloor now
  (List.range daysAhead.toNat).flatMap fun dayOffset =>
    let currentDate := today + (dayOffset : Int) * msPerDay
    let dayOfWeek := weekdayOf currentDate
    (windows.filter fun w => w.dayOfWeek == dayOfWeek).flatMap fun w =>
      let windowStart := timeStringToDate w.startMin dayOfWeek currentDate
      let windowEnd := timeStringToDate w.endMin dayOfWeek currentDate
      if windowEnd < now then []
      else tileWindow windowEnd sessionDuration now dayOfWeek windowStart

-- ==================== SLOT SCORING ====================

/-- The suggestion route's `getSessionCountOnDay`: sessions whose
`scheduledAt` falls between the day's midnight and `23:59:59.999`. -/
def getSessionCountOnDay (date : Int) (sessions : List SessionRec) : Nat :=
  let dayStart := dayFloor date
  let dayEnd := dayStart + 86399999
  (sessions.filter fun session =>
    decide (dayStart ≤ session.scheduledAt) && decide (session.scheduledAt ≤ dayEnd)).length

/-- The suggestion route's `getPriorityLoadForDay`: sum of the included
session-type priorities over the same day bucket.  The source's
`session.sessionType?.priority || 0` always sees an included session type
here, and `|| 0` is the identity on priority numbers, 0 included. -/
def getPriorityLoadForDay (date : Int) (sessions : List SessionRec) : Int :=
  let dayStart := dayFloor date
  let dayEnd := dayStart + 86399999
  ((sessions.filter fun session =>
      decide (dayStart ≤ session.scheduledAt) && decide (session.scheduledAt ≤ dayEnd)).foldl
    (fun sum session => sum + session.priority) 0)

/-- FACTOR 1 (priority) in isolation: contribution and emitted reasons. -/
def factorPriority (sessionTypeStats : SessionTypeStats) : ℚ × List Reason :=
  ((sessionTypeStats.priority : ℚ) * 20,
   if 4 ≤ sessionTypeStats.priority then [.highPriority sessionTypeStats.priority] else [])

/-- FACTOR 2 (recency) in isolation. -/
def factorRecency (slot : TimeSlot) (sessionTypeStats : SessionTypeStats) : ℚ × List Reason :=
  match sessionTypeStats.lastScheduled with
  | some lastScheduled =>
    let daysSinceLastScheduled := daysBetween lastScheduled slot.start
    (min (daysSinceLastScheduled * 5) 50,
     if 2 ≤ daysSinceLastScheduled then
       [.goodSpacing daysSinceLastScheduled sessionTypeStats.name]
     else [])
  | none => (30, [.firstTimeScheduling])

/-- FACTOR 3 (spacing consistency) in isolation.  The source guard is the
JavaScript truthiness test `sessionTypeStats.averageSpacingDays &&
sessionTypeStats.lastScheduled`: a `null` average *and* an average equal to
0 are both falsy, while a Date is always truthy. -/
def factorSpacing (slot : TimeSlot) (sessionTypeStats : SessionTypeStats) : ℚ × List Reason :=
  match sessionTypeStats.averageSpacingDays, sessionTypeStats.lastScheduled with
  | some averageSpacing, some lastScheduled =>
    if averageSpacing = 0 then (0, [])
    else
      let daysSinceLastScheduled := daysBetween lastScheduled slot.start
      let spacingDiff := qabs (daysSinceLastScheduled - averageSpacing)
      (max 0 (30 - spacingDiff * 5),
       if spacingDiff < 1/2 then [.usualSpacingPattern averageSpacing] else [])
  | _, _ => (0, [])

/-- FACTOR 4 (daily load penalty) in isolation. -/
def factorLoad (slot : TimeSlot) (existingSessions : List SessionRec) : ℚ × List Reason :=
  let sessionsOnDay := getSessionCountOnDay slot.start existingSessions
  let priorityLoadOnDay := getPriorityLoadForDay slot.start existingSessions
  (-((sessionsOnDay : ℚ) * 15) - (priorityLoadOnDay : ℚ) * 5,
   (if sessionsOnDay = 0 then [.noOtherSessionsToday]
    else if 3 ≤ sessionsOnDay then [.dayAlreadyHasSessions sessionsOnDay] else []) ++
   (if 15 ≤ priorityLoadOnDay then [.highPriorityLoad priorityLoadOnDay] else []))

/-- FACTOR 5 (time-of-day fit) in isolation. -/
def factorTimeOfDay (slot : TimeSlot) (sessionTypeStats : SessionTypeStats) : ℚ × List Reason :=
  let hour := hourOf slot.start
  if 4 ≤ sessionTypeStats.priority ∧ 6 ≤ hour ∧ hour ≤ 10 then (10, [.morningSlot])
  else if sessionTypeStats.priority ≤ 2 ∧ 14 ≤ hour ∧ hour ≤ 18 then (10, [.afternoonSlot])
  else (0, [])

/-- FACTOR 6 (urgency) in isolation; it never emits a reason. -/
def factorUrgency (slot : TimeSlot) (now : Int) : ℚ × List Reason :=
  let daysUntilSlot := daysBetween now slot.start
  (max 0 (40 - daysUntilSlot * 3), [])

/-- FACTOR 7 (buffer time) in isolation. -/
def factorBuffer (slot : TimeSlot) (existingSessions : List SessionRec) : ℚ × List Reason :=
  let hasBufferBefore := !(existingSessions.any fun session =>
    let sessionEnd := session.scheduledAt + session.duration * 60000
    let timeDiff : ℚ := ((slot.start - sessionEnd : Int) : ℚ) / 60000
    decide (0 < timeDiff) && decide (timeDiff < 30))
  let hasBufferAfter := !(existingSessions.any fun session =>
    let timeDiff : ℚ := ((session.scheduledAt - slot.endTime : Int) : ℚ) / 60000
    decide (0 < timeDiff) && decide (timeDiff < 30))
  if hasBufferBefore && hasBufferAfter then (15, [.goodBufferTime]) else (0, [])

/-- State of `scoreTimeSlot`'s mutable `score` and `reasons` accumulators
after the FACTOR 1 (priority) block. -/
def scoreAcc1 (sessionTypeStats : SessionTypeStats) : ℚ × List Reason :=
  (0 + (sessionTypeStats.priority : ℚ) * 20,
   if 4 ≤ sessionTypeStats.priority then [.highPriority sessionTypeStats.priority] else [])

/-- Accumulator state after the FACTOR 2 (recency) block. -/
def scoreAcc2 (slot : TimeSlot) (sessionTypeStats : SessionTypeStats) : ℚ × List Reason :=
  match sessionTypeStats.lastScheduled with
  | some lastScheduled =>
    let daysSinceLastScheduled := daysBetween lastScheduled slot.start
    ((scoreAcc1 sessionTypeStats).1 + min (daysSinceLastScheduled * 5) 50,
     if 2 ≤ daysSinceLastScheduled then
       (scoreAcc1 sessionTypeStats).2 ++ [.goodSpacing daysSinceLastScheduled sessionTypeStats.name]
     else (scoreAcc1 sessionTypeStats).2)
  | none =>
    ((scoreAcc1 sessionTypeStats).1 + 30, (scoreAcc1 sessionTypeStats).2 ++ [.firstTimeScheduling])

/-- Accumulator state after the FACTOR 3 (spacing consistency) block.  The
guard is the JavaScript truthiness test `averageSpacingDays &&
lastScheduled`: a `null` average *and* an average equal to 0 are both
falsy, while a Date is always truthy. -/
def scoreAcc3 (slot : TimeSlot) (sessionTypeStats : SessionTypeStats) : ℚ × List Reason :=
  match sessionTypeStats.averageSpacingDays, sessionTypeStats.lastScheduled with
  | some averageSpacing, some lastScheduled =>
    if averageSpacing = 0 then scoreAcc2 slot sessionTypeStats
    else
      let daysSinceLastScheduled := daysBetween lastScheduled slot.start
      let spacingDiff := qabs (daysSinceLastScheduled - averageSpacing)
      ((scoreAcc2 slot sessionTypeStats).1 + max 0 (30 - spacingDiff * 5),
       if spacingDiff < 1/2 then
         (scoreAcc2 slot sessionTypeStats).2 ++ [.usualSpacingPattern averageSpacing]
       else (scoreAcc2 slot sessionTypeStats).2)
  | _, _ => scoreAcc2 slot sessionTypeStats

/-- Accumulator state after the FACTOR 4 (daily load penalty) block. -/
def scoreAcc4 (slot : TimeSlot) (sessionTypeStats : SessionTypeStats)
    (existingSessions : List SessionRec) : ℚ × List Reason :=
  let sessionsOnDay := getSessionCountOnDay slot.start existingSessions
  let priorityLoadOnDay := getPriorityLoadForDay slot.start existingSessions
  ((scoreAcc3 slot sessionTypeStats).1 - (sessionsOnDay : ℚ) * 15 - (priorityLoadOnDay : ℚ) * 5,
   ((scoreAcc3 slot sessionTypeStats).2 ++
     (if sessionsOnDay = 0 then [.noOtherSessionsToday]
      else if 3 ≤ sessionsOnDay then [.dayAlreadyHasSessions sessionsOnDay] else [])) ++
    (if 15 ≤ priorityLoadOnDay then [.highPriorityLoad priorityLoadOnDay] else []))

/-- Accumulator state after the FACTOR 5 (time-of-day fit) block. -/
def scoreAcc5 (slot : TimeSlot) (sessionTypeStats : SessionTypeStats)
    (existingSessions : List SessionRec) : ℚ × List Reason :=
  let hour := hourOf slot.start
  if 4 ≤ sessionTypeStats.priority ∧ 6 ≤ hour ∧ hour ≤ 10 then
    ((scoreAcc4 slot sessionTypeStats existingSessions).1 + 10,
     (scoreAcc4 slot sessionTypeStats existingSessions).2 ++ [.morningSlot])
  else if sessionTypeStats.priority ≤ 2 ∧ 14 ≤ hour ∧ hour ≤ 18 then
    ((scoreAcc4 slot sessionTypeStats existingSessions).1 + 10,
     (scoreAcc4 slot sessionTypeStats existingSessions).2 ++ [.afternoonSlot])
  else scoreAcc4 slot sessionTypeStats existingSessions

/-- Accumulator state after the FACTOR 6 (urgency) block; no reason text. -/
def scoreAcc6 (slot : TimeSlot) (sessionTypeStats : SessionTypeStats)
    (existingSessions : List SessionRec) (now : Int) : ℚ × List Reason :=
  let daysUntilSlot := daysBetween now slot.start
  ((scoreAcc5 slot sessionTypeStats existingSessions).1 + max 0 (40 - daysUntilSlot * 3),
   (scoreAcc5 slot sessionTypeStats existingSessions).2)

/-- Accumulator state after the FACTOR 7 (buffer time) block. -/
def scoreAcc7 (slot : TimeSlot) (sessionTypeStats : SessionTypeStats)
    (existingSessions : List SessionRec) (now : Int) : ℚ × List Reason :=
  let hasBufferBefore := !(existingSessions.any fun session =>
    let sessionEnd := session.scheduledAt + session.duration * 60000
    let timeDiff : ℚ := ((slot.start - sessionEnd : Int) : ℚ) / 60000
    decide (0 < timeDiff) && decide (timeDiff < 30))
  let hasBufferAfter := !(existingSessions.any fun session =>
    let timeDiff : ℚ := ((session.scheduledAt - slot.endTime : Int) : ℚ) / 60000
    decide (0 < timeDiff) && decide (timeDiff < 30))
  if hasBufferBefore && hasBufferAfter then
    ((scoreAcc6 slot sessionTypeStats existingSessions now).1 + 15,
     (scoreAcc6 slot sessionTypeStats existingSessions now).2 ++ [.goodBufferTime])
  else scoreAcc6 slot sessionTypeStats existingSessions now

/-- The suggestion route's `scoreTimeSlot`: a single pass threading the
mutable `score` and `reasons` accumulators through the seven factor blocks
in order (`scoreAcc1` … `scoreAcc7` are the intermediate states of that
pass).  `now` is the injected clock read by factor 6. -/
def scoreTimeSlot (slot : TimeSlot) (sessionTypeStats : SessionTypeStats)
    (existingSessions : List SessionRec) (now : Int) : ScoredSlot :=
  { start := slot.start, endTime := slot.endTime, dayOfWeek := slot.dayOfWeek,
    score := (scoreAcc7 slot sessionTypeStats existingSessions now).1,
    reasons := (scoreAcc7 slot sessionTypeStats existingSessions now).2 }

-- ==================== SUGGESTION ENGINE (GET /api/suggestions) ====================

/-- One entry of the route's `topSuggestions` response array. -/
structure RankedSuggestion where
  rank : Nat
  typeId : String
  typeName : String
  category : String
  priority : Int
  suggestedStart : Int
  suggestedEnd : Int
  duration : Int
  score : Int
  reasons : List Reason
deriving DecidableEq, Repr

/-- The `sessionTypeStats` summary attached to a non-empty response. -/
structure StatsSummary where
  name : String
  priority : Int
  upcomingCount : Nat
  completedCount : Nat
  averageSpacingDays : Option ℚ
deriving DecidableEq, Repr

/-- The suggestion route's success payload.  `noSlotsMessage` models the
`message`-only early return for an empty candidate set (which carries no
stats summary); the normal return carries the summary and no message. -/
structure SuggestOutput where
  suggestions : List RankedSuggestion
  noSlotsMessage : Bool
  typeStatsSummary : Option StatsSummary
deriving DecidableEq, Repr

/-- The route's `.map((slot, index) => ({ rank: index + 1, ... }))`,
carried out with an explicit running index. -/
def rankMap (duration : Int) (sessionTypeStats : SessionTypeStats) (index : Nat) :
    List ScoredSlot → List RankedSuggestion
  | [] => []
  | slot :: rest =>
    { rank := index + 1,
      typeId := sessionTypeStats.id, typeName := sessionTypeStats.name,
      category := sessionTypeStats.category, priority := sessionTypeStats.priority,
      suggestedStart := slot.start, suggestedEnd := slot.endTime,
      duration := duration, score := round slot.score, reasons := slot.reasons } ::
      rankMap duration sessionTypeStats (index + 1) rest

/-- Step 4 of the route: stable-sort by descending score, slice the first
`limit` entries, and attach 1-based ranks, the requested duration, the
`Math.round`ed score (`round q = ⌊q + 1/2⌋`, exactly `Math.round`) and the
reason list. -/
def topSuggestions (duration : Int) (sessionTypeStats : SessionTypeStats) (limit : Int)
    (scoredSlots : List ScoredSlot) : List RankedSuggestion :=
  rankMap duration sessionTypeStats 0 ((sortSlots scoredSlots).take limit.toNat)

/-- The suggestion route's `GET` handler (the spec's `getSuggestions`):
parameter validation, statistics resolution, candidate generation,
conflict filtering, scoring, ranking and top-N selection, over an injected
store snapshot and clock. -/
def getSuggestions (sessionTypeId : Option String) (duration daysAhead limit : Int)
    (sessionTypes : List SessionTypeRec) (sessions : List SessionRec)
    (windows : List AvailabilityWindow) (now : Int) : Except SuggestError SuggestOutput :=
  match sessionTypeId with
  | none => .error (.validation .missingSessionTypeId)
  | some tid =>
    if duration ≤ 0 ∨ 480 < duration then .error (.validation .durationOutOfRange)
    else
      match getSessionTypeStats sessionTypes sessions tid now with
      | .error e => .error e
      | .ok sessionTypeStats =>
        let existingSessions := sessions.filter fun s => decide (now ≤ s.scheduledAt)
        let candidateSlots := generateCandidateSlots windows now daysAhead duration
        let availableSlots := candidateSlots.filter fun slot => !hasConflict slot existingSessions
        if availableSlots = [] then
          .ok { suggestions := [], noSlotsMessage := true, typeStatsSummary := none }
        else
          let scoredSlots := availableSlots.map fun slot =>
            scoreTimeSlot slot sessionTypeStats existingSessions now
          .ok { suggestions := topSuggestions duration sessionTypeStats limit scoredSlots,
                noSlotsMessage := false,
                typeStatsSummary := some
                  { name := sessionTypeStats.name, priority := sessionTypeStats.priority,
                    upcomingCount := sessionTypeStats.upcomingCount,
                    completedCount := sessionTypeStats.completedCount,
                    averageSpacingDays := sessionTypeStats.averageSpacingDays } }

/-- The suggestion list of a response; an error response carries none. -/
def suggestionsOf : Except SuggestError SuggestOutput → List RankedSuggestion
  | .ok output => output.suggestions
  | .error _ => []

-- ==================== CURRENT STREAK (GET /api/stats) ====================

/-- Insert into a list of instants sorted descending. -/
def insertTimeDesc (a : Int) : List Int → List Int
  | [] => [a]
  | b :: l => if b ≤ a then a :: b :: l else b :: insertTimeDesc a l

/-- Stable sort of instants, descending (the stats route's
`sort((a, b) => b.scheduledAt - a.scheduledAt)`). -/
def sortTimesDesc : List Int → List Int
  | [] => []
  | a :: l => insertTimeDesc a (sortTimesDesc l)

/-- The stats route's current-streak `while` loop.  `sessions` is the
descending-sorted completed list (only `scheduledAt` is read); `checkDate`
and `today` are day-floored instants.  The loop's float comparison
`daysSinceSession > 1` is `msPerDay < today - sessionDate` exactly. -/
def streakLoop (sessions : List Int) (checkDate today : Int) (streak : Nat) : Nat :=
  match sessions with
  | [] => streak
  | s :: rest =>
    let sessionDate := dayFloor s
    if sessionDate = checkDate then
      -- session on checkDate: increment streak, advance, move back a day
      let streak1 := streak + 1
      if streak1 = 0 ∧ msPerDay < today - sessionDate then streak1
      else streakLoop rest (checkDate - msPerDay) today streak1
    else if sessionDate < checkDate then
      -- session older than checkDate: move checkDate back
      if streak = 0 ∧ msPerDay < today - sessionDate then streak
      else streakLoop (s :: rest) (checkDate - msPerDay) today streak
    else
      -- session newer than checkDate: move to next session
      if streak = 0 ∧ msPerDay < today - sessionDate then streak
      else streakLoop rest checkDate today streak
termination_by (sessions.length, (checkDate - dayFloor (sessions.headD 0)).toNat)
decreasing_by all_goals (unfold msPerDay at *; decreasing_tactic)

/-- The stats route's `currentStreak` derivation over the completed
sessions' `scheduledAt` instants: zero when none exist, otherwise the
backward day-walk from today's midnight. -/
def currentStreak (completedTimes : List Int) (now : Int) : Nat :=
  if completedTimes = [] then 0
  else
    let sortedCompleted := sortTimesDesc completedTimes
    let today := dayFloor now
    streakLoop sortedCompleted today today 0

/-- Current streak straight from the session records, as the route computes
it from `allSessions.filter(s => s.completed)`. -/
def currentStreakOfSessions (sessions : List SessionRec) (now : Int) : Nat :=
  currentStreak ((sessions.filter fun s => s.completed).map (·.scheduledAt)) now

-- ==================== SESSION UPDATE (PUT /api/sessions/[id]) ====================

/-- Errors of the update handler that are representable in the typed
model (`completed must be a boolean` and the invalid-date rejection guard
ill-typed inputs that a typed body cannot express). -/
inductive UpdateError where
  | sessionNotFound
  | invalidDuration
deriving DecidableEq, Repr

/-- The update request body; `none` models an absent (`undefined`) field. -/
structure UpdateBody where
  completed : Option Bool := none
  scheduledAt : Option Int := none
  duration : Option Int := none
deriving DecidableEq, Repr

/-- The sessions `[id]` route's `PUT` handler: looks the session up,
validates only the shapes of the provided fields (duration must be
positive), and writes the update.  It performs no conflict check of any
kind — `checkConflicts` and its `excludeSessionId` parameter are never
invoked on this path.  Returns the updated record and the updated store. -/
def putSession (sessions : List SessionRec) (id : String) (body : UpdateBody) :
    Except UpdateError (SessionRec × List SessionRec) :=
  match sessions.find? (fun s => decide (s.id = id)) with
  | none => .error .sessionNotFound
  | some existing =>
    if body.duration.any (fun d => decide (d ≤ 0)) then .error .invalidDuration
    else
      let updated : SessionRec :=
        { existing with
          completed := body.completed.getD existing.completed,
          scheduledAt := body.scheduledAt.getD existing.scheduledAt,
          duration := body.duration.getD existing.duration }
      .ok (updated, sessions.map fun s => if s.id = id then updated else s)

-- ==================== CONCRETE TEST FIXTURES ====================

/-- Equality of route results is decidable (needed to evaluate the
pipeline on concrete stores). -/
instance {ε α : Type} [DecidableEq ε] [DecidableEq α] : DecidableEq (Except ε α) := fun x y =>
  match x, y with
  | .ok a, .ok b => if h : a = b then isTrue (by rw [h]) else isFalse (by simp [h])
  | .ok _, .error _ => isFalse (by simp)
  | .error _, .ok _ => isFalse (by simp)
  | .error e, .error f => if h : e = f then isTrue (by rw [h]) else isFalse (by simp [h])

/-- The statistics record produced by `getSessionTypeStats` for a type with
two completed sessions at the same instant: the average spacing exists and
equals 0 — the JavaScript-falsy value at the heart of the spacing
factor's guard. -/
def statsC7 : SessionTypeStats :=
  { id := "t2", name := "Yoga", category := "health", priority := 3,
    lastScheduled := some 0, upcomingCount := 0, completedCount := 2,
    averageSpacingDays := some 0 }

/-- A one-hour candidate slot starting exactly at the `statsC7` type's
last-scheduled instant (so `daysSinceLastScheduled = 0`). -/
def slotC7 : TimeSlot := { start := 0, endTime := 3600000, dayOfWeek := 0 }

-- ==================== HELPER LEMMAS ====================

theorem filter_ne_nil_any {α : Type} [DecidableEq α] (l : List α) (p : α → Bool) :
    decide (l.filter p ≠ []) = l.any p := by
  rw [Bool.eq_iff_iff]
  simp [List.filter_eq_nil_iff, List.any_eq_true]

theorem qabs_eq_abs (q : ℚ) : qabs q = |q| := by
  unfold qabs
  split_ifs with h
  · exact (abs_of_neg h).symm
  · exact (abs_of_nonneg (le_of_not_lt h)).symm

theorem scoreAcc2_eq (slot : TimeSlot) (st : SessionTypeStats) :
    scoreAcc2 slot st =
      ((scoreAcc1 st).1 + (factorRecency slot st).1,
       (scoreAcc1 st).2 ++ (factorRecency slot st).2) := by
  unfold scoreAcc2 factorRecency
  rcases st.lastScheduled with _ | last <;> dsimp only <;> split_ifs <;> simp

theorem scoreAcc3_eq (slot : TimeSlot) (st : SessionTypeStats) :
    scoreAcc3 slot st =
      ((scoreAcc2 slot st).1 + (factorSpacing slot st).1,
       (scoreAcc2 slot st).2 ++ (factorSpacing slot st).2) := by
  unfold scoreAcc3 factorSpacing
  rcases st.averageSpacingDays with _ | avg <;> rcases st.lastScheduled with _ | last <;>
    dsimp only <;> first | (split_ifs <;> simp) | simp

theorem scoreAcc4_eq (slot : TimeSlot) (st : SessionTypeStats) (sess : List SessionRec) :
    scoreAcc4 slot st sess =
      ((scoreAcc3 slot st).1 + (factorLoad slot sess).1,
       (scoreAcc3 slot st).2 ++ (factorLoad slot sess).2) := by
  unfold scoreAcc4 factorLoad
  dsimp only
  simp only [Prod.mk.injEq]
  exact ⟨by ring, by simp [List.append_assoc]⟩

theorem scoreAcc5_eq (slot : TimeSlot) (st : SessionTypeStats) (sess : List SessionRec) :
    scoreAcc5 slot st sess =
      ((scoreAcc4 slot st sess).1 + (factorTimeOfDay slot st).1,
       (scoreAcc4 slot st sess).2 ++ (factorTimeOfDay slot st).2) := by
  unfold scoreAcc5 factorTimeOfDay
  dsimp only
  split_ifs <;> simp

theorem scoreAcc6_eq (slot : TimeSlot) (st : SessionTypeStats) (sess : List SessionRec)
    (now : Int) :
    scoreAcc6 slot st sess now =
      ((scoreAcc5 slot st sess).1 + (factorUrgency slot now).1,
       (scoreAcc5 slot st sess).2 ++ (factorUrgency slot now).2) := by
  unfold scoreAcc6 factorUrgency
  simp

theorem scoreAcc7_eq (slot : TimeSlot) (st : SessionTypeStats) (sess : List SessionRec)
    (now : Int) :
    scoreAcc7 slot st sess now =
      ((scoreAcc6 slot st sess now).1 + (factorBuffer slot sess).1,
       (scoreAcc6 slot st sess now).2 ++ (factorBuffer slot sess).2) := by
  unfold scoreAcc7 factorBuffer
  dsimp only
  split_ifs <;> simp

theorem scoreAcc1_eq (st : SessionTypeStats) :
    scoreAcc1 st = ((factorPriority st).1, (factorPriority st).2) := by
  unfold scoreAcc1 factorPriority
  dsimp only
  simp only [Prod.mk.injEq]
  exact ⟨by ring, trivial⟩

theorem scoreTimeSlot_score_eq (slot : TimeSlot) (st : SessionTypeStats)
    (sess : List SessionRec) (now : Int) :
    (scoreTimeSlot slot st sess now).score =
      (factorPriority st).1 + (factorRecency slot st).1 + (factorSpacing slot st).1 +
      (factorLoad slot sess).1 + (factorTimeOfDay slot st).1 +
      (factorUrgency slot now).1 + (factorBuffer slot sess).1 := by
  show (scoreAcc7 slot st sess now).1 = _
  rw [scoreAcc7_eq, scoreAcc6_eq, scoreAcc5_eq, scoreAcc4_eq, scoreAcc3_eq, scoreAcc2_eq,
    scoreAcc1_eq]

theorem scoreTimeSlot_reasons_eq (slot : TimeSlot) (st : SessionTypeStats)
    (sess : List SessionRec) (now : Int) :
    (scoreTimeSlot slot st sess now).reasons =
      (factorPriority st).2 ++ (factorRecency slot st).2 ++ (factorSpacing slot st).2 ++
      (factorLoad slot sess).2 ++ (factorTimeOfDay slot st).2 ++
      (factorUrgency slot now).2 ++ (factorBuffer slot sess).2 := by
  show (scoreAcc7 slot st sess now).2 = _
  rw [scoreAcc7_eq, scoreAcc6_eq, scoreAcc5_eq, scoreAcc4_eq, scoreAcc3_eq, scoreAcc2_eq,
    scoreAcc1_eq]
  try simp [List.append_assoc]

-- ==================== CLAIM THEOREMS ====================

/-- C2: the interval-overlap test is half-open (`startA < endB ∧
startB < endA`) and symmetric; adjacent intervals sharing only a boundary
instant do not conflict; and both conflict detectors (`hasConflict` of the
suggestion route, `checkConflicts` of the sessions route, with or without
an excluded id) apply exactly this test against every existing session's
interval `[scheduledAt, scheduledAt + duration)`. -/
theorem intervalsOverlap_halfOpen_symm_conflict :
    ∀ (startA endA startB endB : Int) (slot : TimeSlot) (sessions : List SessionRec)
      (scheduledAt duration : Int) (e : String),
    (intervalsOverlap startA endA startB endB =
        (decide (startA < endB) && decide (startB < endA)))
    ∧ intervalsOverlap startA endA startB endB = intervalsOverlap startB endB startA endA
    ∧ intervalsOverlap startA endA endA endB = false
    ∧ hasConflict slot sessions =
        (sessions.any fun s =>
          intervalsOverlap slot.start slot.endTime s.scheduledAt
            (s.scheduledAt + s.duration * 60000))
    ∧ (checkConflicts sessions scheduledAt duration none).1 =
        (sessions.any fun s =>
          intervalsOverlap scheduledAt (scheduledAt + duration * 60000) s.scheduledAt
            (s.scheduledAt + s.duration * 60000))
    ∧ (checkConflicts sessions scheduledAt duration (some e)).1 =
        ((sessions.filter fun s => decide (s.id ≠ e)).any fun s =>
          intervalsOverlap scheduledAt (scheduledAt + duration * 60000) s.scheduledAt
            (s.scheduledAt + s.duration * 60000)) := by
  intro startA endA startB endB slot sessions scheduledAt duration e
  have hcomm : ∀ (t d : Int),
      (fun s : SessionRec =>
        decide (s.scheduledAt < t + d * 60000) &&
          decide (t < s.scheduledAt + s.duration * 60000)) =
      (fun s : SessionRec =>
        intervalsOverlap t (t + d * 60000) s.scheduledAt
          (s.scheduledAt + s.duration * 60000)) := by
    intro t d
    funext s
    simp [intervalsOverlap, Bool.and_comm]
  refine ⟨rfl, ?_, ?_, rfl, ?_, ?_⟩
  · simp [intervalsOverlap, Bool.and_comm]
  · simp [intervalsOverlap]
  · show decide _ = _
    rw [filter_ne_nil_any, hcomm]
  · show decide _ = _
    rw [filter_ne_nil_any, hcomm]

/-- C9: scoring is deterministic and short-circuit-free: `scoreTimeSlot`
is a pure function of (slot, statistics, existing sessions, clock), its
score is the sum of the seven independently computed factor contributions
(every factor always participates regardless of the others), and its
reason list is the concatenation of the per-factor reasons in factor order
1→7.  Determinism of repeated calls is definitional, since the embedding
of the source is a function of exactly these inputs. -/
theorem scoreTimeSlot_deterministic_factor_sum :
    ∀ (slot : TimeSlot) (stats : SessionTypeStats)
      (sessions : List SessionRec) (now : Int),
    scoreTimeSlot slot stats sessions now = scoreTimeSlot slot stats sessions now
    ∧ (scoreTimeSlot slot stats sessions now).score =
        (factorPriority stats).1 + (factorRecency slot stats).1 + (factorSpacing slot stats).1 +
        (factorLoad slot sessions).1 + (factorTimeOfDay slot stats).1 +
        (factorUrgency slot now).1 + (factorBuffer slot sessions).1
    ∧ (scoreTimeSlot slot stats sessions now).reasons =
        (factorPriority stats).2 ++ (factorRecency slot stats).2 ++ (factorSpacing slot stats).2 ++
        (factorLoad slot sessions).2 ++ (factorTimeOfDay slot stats).2 ++
        (factorUrgency slot now).2 ++ (factorBuffer slot sessions).2 := by
  intro slot stats sessions now
  exact ⟨rfl, scoreTimeSlot_score_eq slot stats sessions now,
    scoreTimeSlot_reasons_eq slot stats sessions now⟩

-- ==================== SORT AND RANK LEMMAS ====================

theorem insertSlotDesc_perm (a : ScoredSlot) (l : List ScoredSlot) :
    (insertSlotDesc a l).Perm (a :: l) := by
  induction l with
  | nil => exact List.Perm.refl _
  | cons b t ih =>
    unfold insertSlotDesc
    split_ifs with h
    · exact List.Perm.refl _
    · exact (List.Perm.cons b ih).trans (List.Perm.swap a b t)

theorem sortSlots_perm (l : List ScoredSlot) : (sortSlots l).Perm l := by
  induction l with
  | nil => exact List.Perm.refl _
  | cons a t ih =>
    exact (insertSlotDesc_perm a (sortSlots t)).trans (List.Perm.cons a ih)

theorem mem_insertSlotDesc {x a : ScoredSlot} {l : List ScoredSlot} :
    x ∈ insertSlotDesc a l ↔ x = a ∨ x ∈ l := by
  rw [(insertSlotDesc_perm a l).mem_iff]
  simp

theorem insertSlotDesc_sorted (a : ScoredSlot) (l : List ScoredSlot)
    (h : l.Pairwise (fun x y => y.score ≤ x.score)) :
    (insertSlotDesc a l).Pairwise (fun x y => y.score ≤ x.score) := by
  induction l with
  | nil => simp [insertSlotDesc]
  | cons b t ih =>
    unfold insertSlotDesc
    rw [List.pairwise_cons] at h
    split_ifs with hba
    · refine List.Pairwise.cons ?_ (List.Pairwise.cons h.1 h.2)
      intro y hy
      rcases List.mem_cons.mp hy with rfl | hy
      · exact hba
      · exact le_trans (h.1 y hy) hba
    · refine List.Pairwise.cons ?_ (ih h.2)
      intro y hy
      rcases mem_insertSlotDesc.mp hy with rfl | hy
      · exact le_of_not_le hba
      · exact h.1 y hy

theorem sortSlots_sorted (l : List ScoredSlot) :
    (sortSlots l).Pairwise (fun x y => y.score ≤ x.score) := by
  induction l with
  | nil => simp [sortSlots]
  | cons a t ih => exact insertSlotDesc_sorted a (sortSlots t) ih

theorem insertSlotDesc_filter (a : ScoredSlot) (l : List ScoredSlot) (c : ℚ) :
    (insertSlotDesc a l).filter (fun x => decide (x.score = c)) =
      if a.score = c then a :: l.filter (fun x => decide (x.score = c))
      else l.filter (fun x => decide (x.score = c)) := by
  induction l with
  | nil =>
    by_cases hac : a.score = c <;> simp [insertSlotDesc, List.filter_cons, hac]
  | cons b t ih =>
    unfold insertSlotDesc
    by_cases hba : b.score ≤ a.score
    · rw [if_pos hba]
      by_cases hac : a.score = c <;> simp [List.filter_cons, hac]
    · rw [if_neg hba]
      rw [List.filter_cons, ih]
      by_cases hac : a.score = c <;> by_cases hbc : b.score = c
      · have hba2 : b.score ≤ a.score := by simp [hbc, hac]
        exact absurd hba2 hba
      · simp [List.filter_cons, hac, hbc]
      · simp [List.filter_cons, hac, hbc]
      · simp [List.filter_cons, hac, hbc]

theorem sortSlots_filter (l : List ScoredSlot) (c : ℚ) :
    (sortSlots l).filter (fun x => decide (x.score = c)) =
      l.filter (fun x => decide (x.score = c)) := by
  induction l with
  | nil => rfl
  | cons a t ih =>
    show (insertSlotDesc a (sortSlots t)).filter _ = _
    rw [insertSlotDesc_filter]
    by_cases hac : a.score = c <;> simp [List.filter_cons, hac, ih]

theorem rankMap_map_rank (d : Int) (st : SessionTypeStats) (i : Nat) (l : List ScoredSlot) :
    (rankMap d st i l).map (fun s => s.rank) = List.range' (i + 1) l.length := by
  induction l generalizing i with
  | nil => rfl
  | cons a t ih => simp [rankMap, List.range'_succ, ih]

theorem rankMap_map_content (d : Int) (st : SessionTypeStats) (i : Nat) (l : List ScoredSlot) :
    (rankMap d st i l).map
        (fun s => (s.suggestedStart, s.suggestedEnd, s.duration, s.score, s.reasons)) =
      l.map (fun sl => (sl.start, sl.endTime, d, round sl.score, sl.reasons)) := by
  induction l generalizing i with
  | nil => rfl
  | cons a t ih => simp [rankMap, ih]

theorem mem_rankMap {sug : RankedSuggestion} (d : Int) (st : SessionTypeStats) (i : Nat)
    {l : List ScoredSlot} (h : sug ∈ rankMap d st i l) :
    ∃ sl ∈ l, sug.suggestedStart = sl.start ∧ sug.suggestedEnd = sl.endTime := by
  induction l generalizing i with
  | nil => simp [rankMap] at h
  | cons a t ih =>
    rcases List.mem_cons.mp h with rfl | h2
    · exact ⟨a, List.mem_cons_self a t, rfl, rfl⟩
    · obtain ⟨sl, hsl, h1, h2⟩ := ih _ h2
      exact ⟨sl, List.mem_cons_of_mem _ hsl, h1, h2⟩

theorem scoreTimeSlot_start (slot : TimeSlot) (st : SessionTypeStats)
    (sess : List SessionRec) (now : Int) :
    (scoreTimeSlot slot st sess now).start = slot.start := rfl

theorem scoreTimeSlot_endTime (slot : TimeSlot) (st : SessionTypeStats)
    (sess : List SessionRec) (now : Int) :
    (scoreTimeSlot slot st sess now).endTime = slot.endTime := rfl

theorem mem_tileWindow {slot : TimeSlot} (windowEnd dur now : Int) (dow : Nat) (s0 : Int)
    (h : slot ∈ tileWindow windowEnd dur now dow s0) :
    now < slot.start ∧ slot.endTime = slot.start + dur * 60000 ∧ slot.endTime ≤ windowEnd ∧
    s0 ≤ slot.start ∧ (slot.start - s0) % (30 * 60000) = 0 ∧ slot.dayOfWeek = dow := by
  revert h
  induction s0 using tileWindow.induct windowEnd dur now dow with
  | case1 s0 hle hnow ih =>
    intro h
    rw [tileWindow, dif_pos hle, if_pos hnow] at h
    rcases List.mem_cons.mp h with rfl | h2
    · exact ⟨hnow, rfl, hle, le_refl _, by simp, rfl⟩
    · obtain ⟨h1, h2, h3, h4, h5, h6⟩ := ih h2
      exact ⟨h1, h2, h3, by omega, by omega, h6⟩
  | case2 s0 hle hnow ih =>
    intro h
    rw [tileWindow, dif_pos hle, if_neg hnow] at h
    obtain ⟨h1, h2, h3, h4, h5, h6⟩ := ih h
    exact ⟨h1, h2, h3, by omega, by omega, h6⟩
  | case3 s0 hle =>
    intro h
    rw [tileWindow, dif_neg hle] at h
    simp at h

-- ==================== CLAIM THEOREMS (continued) ====================

/-- C1: no suggestion returned by `getSuggestions` overlaps (half-open
test) any session of the existing-session universe fetched at call time —
all sessions scheduled at or after `now`, completed or not.  Every
candidate conflicting with any such session is dropped before scoring, so
the final ranked list is conflict-free against that universe. -/
theorem getSuggestions_conflict_free :
    ∀ (sessionTypeId : Option String) (duration daysAhead limit : Int)
      (types : List SessionTypeRec) (sessions : List SessionRec)
      (windows : List AvailabilityWindow) (now : Int),
    (suggestionsOf (getSuggestions sessionTypeId duration daysAhead limit types sessions
        windows now)).all (fun sug =>
      (sessions.filter fun s => decide (now ≤ s.scheduledAt)).all fun s =>
        !(intervalsOverlap sug.suggestedStart sug.suggestedEnd s.scheduledAt
          (s.scheduledAt + s.duration * 60000))) = true := by
  intro tid duration daysAhead limit types sessions windows now
  rw [List.all_eq_true]
  intro sug hsug
  rw [List.all_eq_true]
  intro sess hsess
  cases tid with
  | none => simp [getSuggestions, suggestionsOf] at hsug
  | some t =>
    rw [getSuggestions] at hsug
    by_cases hdur : duration ≤ 0 ∨ 480 < duration
    · rw [if_pos hdur] at hsug
      simp [suggestionsOf] at hsug
    · rw [if_neg hdur] at hsug
      cases hstats : getSessionTypeStats types sessions t now with
      | error e =>
        rw [hstats] at hsug
        simp [suggestionsOf] at hsug
      | ok st =>
        rw [hstats] at hsug
        dsimp only at hsug
        split at hsug
        · simp [suggestionsOf] at hsug
        · simp only [suggestionsOf] at hsug
          rw [topSuggestions] at hsug
          obtain ⟨sl, hsl, hstart, hend⟩ := mem_rankMap _ _ _ hsug
          replace hsl := List.take_subset _ _ hsl
          rw [(sortSlots_perm _).mem_iff] at hsl
          rcases List.mem_map.mp hsl with ⟨slot, hslot, rfl⟩
          rw [scoreTimeSlot_start] at hstart
          rw [scoreTimeSlot_endTime] at hend
          rcases List.mem_filter.mp hslot with ⟨hcand, hnc⟩
          simp only [Bool.not_eq_eq_eq_not, Bool.not_true] at hnc
          rw [hasConflict] at hnc
          rw [List.any_eq_false] at hnc
          have hp := hnc sess hsess
          rw [hstart, hend]
          simp only [intervalsOverlap]
          simp at hp ⊢
          by_cases hlt : slot.start < sess.scheduledAt + sess.duration * 60000
          · exact Or.inr (hp hlt)
          · exact Or.inl (le_of_not_lt hlt)

/-- C3: ranking of scored slots.  The sort is a permutation of the scored
slots ordered by descending score, ties resolved by original generation
order (stability: filtering by any fixed score value yields the original
sublist unchanged); `topSuggestions` then keeps the first `limit` entries
and maps position `i` to rank `i + 1`, attaching the requested duration,
the `Math.round`ed integer score and the reason list. -/
theorem topSuggestions_sorted_stable_ranked :
    ∀ (l : List ScoredSlot) (duration limit : Int) (stats : SessionTypeStats),
    (sortSlots l).Perm l
    ∧ (sortSlots l).Pairwise (fun a b => b.score ≤ a.score)
    ∧ (∀ c : ℚ, (sortSlots l).filter (fun x => decide (x.score = c)) =
        l.filter (fun x => decide (x.score = c)))
    ∧ (topSuggestions duration stats limit l).map (fun s => s.rank) =
        List.range' 1 (min limit.toNat (sortSlots l).length)
    ∧ (topSuggestions duration stats limit l).map
        (fun s => (s.suggestedStart, s.suggestedEnd, s.duration, s.score, s.reasons)) =
        ((sortSlots l).take limit.toNat).map
          (fun sl => (sl.start, sl.endTime, duration, round sl.score, sl.reasons)) := by
  intro l duration limit stats
  refine ⟨sortSlots_perm l, sortSlots_sorted l, fun c => sortSlots_filter l c, ?_, ?_⟩
  · rw [topSuggestions, rankMap_map_rank, List.length_take]
  · rw [topSuggestions, rankMap_map_content]

/-- C4: every candidate slot emitted by the generator starts strictly after
`now`, spans exactly the requested duration, and lies inside the concrete
realization of some availability window of its weekday within the horizon
(window start ≤ slot start and slot end ≤ window end), on the 30-minute
grid anchored at that window's start.  A day with no matching windows, or
only windows in the past, therefore contributes no slots (and the
generator is total, so never an error). -/
theorem generateCandidateSlots_within_windows :
    ∀ (windows : List AvailabilityWindow) (now daysAhead dur : Int),
    (generateCandidateSlots windows now daysAhead dur).all (fun slot =>
      decide (now < slot.start) &&
      decide (slot.endTime = slot.start + dur * 60000) &&
      ((List.range daysAhead.toNat).any fun dayOffset =>
        windows.any fun w =>
          let currentDate := dayFloor now + (dayOffset : Int) * msPerDay
          let windowStart := timeStringToDate w.startMin (weekdayOf currentDate) currentDate
          let windowEnd := timeStringToDate w.endMin (weekdayOf currentDate) currentDate
          (w.dayOfWeek == weekdayOf currentDate) &&
          decide (slot.dayOfWeek = weekdayOf currentDate) &&
          decide (windowStart ≤ slot.start) &&
          decide (slot.endTime ≤ windowEnd) &&
          decide ((slot.start - windowStart) % (30 * 60000) = 0))) = true := by
  intro windows now daysAhead dur
  rw [List.all_eq_true]
  intro slot hslot
  rw [generateCandidateSlots] at hslot
  dsimp only at hslot
  rw [List.mem_flatMap] at hslot
  obtain ⟨o, ho, hslot⟩ := hslot
  rw [List.mem_flatMap] at hslot
  obtain ⟨w, hw, hslot⟩ := hslot
  rcases List.mem_filter.mp hw with ⟨hwmem, hwday⟩
  split at hslot
  · simp at hslot
  · obtain ⟨h1, h2, h3, h4, h5, h6⟩ := mem_tileWindow _ _ _ _ _ hslot
    simp only [Bool.and_eq_true, decide_eq_true_eq]
    refine ⟨⟨h1, h2⟩, ?_⟩
    rw [List.any_eq_true]
    refine ⟨o, ho, ?_⟩
    rw [List.any_eq_true]
    refine ⟨w, hwmem, ?_⟩
    simp only [Bool.and_eq_true, decide_eq_true_eq]
    exact ⟨⟨⟨⟨hwday, h6⟩, h4⟩, h3⟩, h5⟩

/-- C5: a session-type identifier that resolves to no stored session type
makes the statistics computation, and with it the whole `getSuggestions`
call (for any request passing parameter validation), fail with the
NotFound classification — never with a suggestion list and never with any
other error. -/
theorem getSuggestions_unknown_type_notFound :
    ∀ (tid : String) (duration daysAhead limit : Int)
      (types : List SessionTypeRec) (sessions : List SessionRec)
      (windows : List AvailabilityWindow) (now : Int),
    0 < duration → duration ≤ 480 →
    types.all (fun t => decide (t.id ≠ tid)) = true →
    getSessionTypeStats types sessions tid now = .error .notFound
    ∧ getSuggestions (some tid) duration daysAhead limit types sessions windows now =
        .error .notFound := by
  intro tid duration daysAhead limit types sessions windows now h1 h2 hall
  have hfind : types.find? (fun t => decide (t.id = tid)) = none := by
    rw [List.find?_eq_none]
    intro t ht
    have h := List.all_eq_true.mp hall t ht
    simp at h ⊢
    exact h
  have hstats : getSessionTypeStats types sessions tid now = .error .notFound := by
    rw [getSessionTypeStats, hfind]
  refine ⟨hstats, ?_⟩
  rw [getSuggestions, if_neg (by omega), hstats]

/-- C5 witness: a concrete run with an unknown identifier. -/
theorem getSuggestions_unknown_type_notFound_witness :
    getSessionTypeStats [] [] "missing" 0 = .error .notFound
    ∧ getSuggestions (some "missing") 60 7 5 [] [] [] 0 = .error .notFound :=
  getSuggestions_unknown_type_notFound "missing" 60 7 5 [] [] [] 0 (by decide) (by decide)
    (by decide)

/-- C6 (evaluation of the streak code): with day d = 86400000 ms and noon
offsets, completed sessions on today, yesterday and the day before give
streak 3, and a lone completed session 3 days ago gives streak 0 — both as
the claim states.  But with completed sessions on today AND 3 days ago the
walk does NOT freeze at yesterday (the `> 1 day` break only fires while
the streak is still 0): the code returns 2, counting the non-contiguous
session, where the claimed walk-backward contract requires 1.  Instants:
day 1000 noon = 86443200000, day 999 noon = 86356800000, day 998 noon =
86270400000, day 997 noon = 86184000000. -/
theorem currentStreak_walkback_eval :
    currentStreak [86443200000, 86356800000, 86270400000] 86443200000 = 3
    ∧ currentStreak [86184000000] 86443200000 = 0
    ∧ currentStreak [86443200000, 86184000000] 86443200000 = 2 := by
  refine ⟨?_, ?_, ?_⟩ <;>
    simp [currentStreak, streakLoop, sortTimesDesc, insertTimeDesc, dayFloor, msPerDay]

/-- C7 counterexample: statistics with an existing (but zero) average
spacing and an existing last-scheduled instant, as produced by
`getSessionTypeStats` for two completed sessions at the same instant.  The
claim predicts the spacing factor adds `max(0, 30 − 5·|0 − 0|) = 30` and
emits its reason (diff 0 < 0.5); the code skips the factor entirely (the
JavaScript guard `averageSpacingDays && lastScheduled` is falsy for a 0
average): the score (115) equals the no-average score and differs from
the claimed 115 + 30, and no spacing reason appears. -/
theorem scoreTimeSlot_zero_average_spacing_cex :
    getSessionTypeStats [{ id := "t2", name := "Yoga", category := "health", priority := 3 }]
      [{ id := "c1", typeId := "t2", scheduledAt := 0, duration := 60, completed := true,
         priority := 3, typeName := "Yoga" },
       { id := "c2", typeId := "t2", scheduledAt := 0, duration := 60, completed := true,
         priority := 3, typeName := "Yoga" }] "t2" 0 = .ok statsC7
    ∧ statsC7.averageSpacingDays = some 0 ∧ statsC7.lastScheduled = some 0
    ∧ (scoreTimeSlot slotC7 statsC7 [] 0).score = 115
    ∧ (scoreTimeSlot slotC7 { statsC7 with averageSpacingDays := none } [] 0).score = 115
    ∧ (115 : ℚ) ≠ 115 + max 0 (30 - qabs (daysBetween 0 slotC7.start - 0) * 5)
    ∧ (scoreTimeSlot slotC7 statsC7 [] 0).reasons =
        [Reason.noOtherSessionsToday, Reason.goodBufferTime] := by
  refine ⟨?_, rfl, rfl, ?_, ?_, ?_, ?_⟩
  · simp [getSessionTypeStats, sortSessionsDesc, insertSessionDesc, sortSessionsAsc,
      insertSessionAsc, totalSpacing, daysBetween, statsC7]
  · simp [scoreTimeSlot, scoreAcc7, scoreAcc6, scoreAcc5, scoreAcc4, scoreAcc3, scoreAcc2,
      scoreAcc1, statsC7, slotC7, daysBetween, getSessionCountOnDay, getPriorityLoadForDay,
      hourOf, dayFloor, msPerDay, qabs]
    norm_num
  · simp [scoreTimeSlot, scoreAcc7, scoreAcc6, scoreAcc5, scoreAcc4, scoreAcc3, scoreAcc2,
      scoreAcc1, statsC7, slotC7, daysBetween, getSessionCountOnDay, getPriorityLoadForDay,
      hourOf, dayFloor, msPerDay, qabs]
    norm_num
  · norm_num [qabs, daysBetween, slotC7]
  · simp [scoreTimeSlot, scoreAcc7, scoreAcc6, scoreAcc5, scoreAcc4, scoreAcc3, scoreAcc2,
      scoreAcc1, statsC7, slotC7, daysBetween, getSessionCountOnDay, getPriorityLoadForDay,
      hourOf, dayFloor, msPerDay, qabs]

/-- C7 amended: the spacing-consistency factor is applied exactly when a
last-scheduled instant exists AND an average historical spacing exists and
is nonzero (JavaScript truthiness of the guard: a 0 average is falsy and
skips the factor); when applied it adds `max(0, 30 − 5·|daysSinceLast −
averageSpacing|)` to the score and emits its reason exactly when the
absolute difference is below 0.5 day; a present-but-zero average behaves
identically to an absent one. -/
theorem scoreTimeSlot_spacing_truthiness_amended :
    ∀ (slot : TimeSlot) (stats : SessionTypeStats) (sessions : List SessionRec)
      (now : Int) (a : ℚ) (l : Int),
    stats.averageSpacingDays = some a → stats.lastScheduled = some l → a ≠ 0 →
    ((scoreTimeSlot slot stats sessions now).score =
        (scoreTimeSlot slot { stats with averageSpacingDays := none } sessions now).score +
          max 0 (30 - qabs (daysBetween l slot.start - a) * 5)
      ∧ (Reason.usualSpacingPattern a ∈ (scoreTimeSlot slot stats sessions now).reasons ↔
          qabs (daysBetween l slot.start - a) < 1/2))
    ∧ (scoreTimeSlot slot { stats with averageSpacingDays := some 0 } sessions now).score =
        (scoreTimeSlot slot { stats with averageSpacingDays := none } sessions now).score
    ∧ (scoreTimeSlot slot { stats with averageSpacingDays := some 0 } sessions now).reasons =
        (scoreTimeSlot slot { stats with averageSpacingDays := none } sessions now).reasons := by
  intro slot stats sessions now a l ha hl h0
  have hs1 : factorSpacing slot stats =
      (max 0 (30 - qabs (daysBetween l slot.start - a) * 5),
       if qabs (daysBetween l slot.start - a) < 1/2 then [.usualSpacingPattern a] else []) := by
    unfold factorSpacing
    rw [ha, hl]
    dsimp only
    rw [if_neg h0]
  have hs0 : factorSpacing slot { stats with averageSpacingDays := none } = (0, []) := rfl
  have hz : factorSpacing slot { stats with averageSpacingDays := some 0 } = (0, []) := by
    unfold factorSpacing
    cases stats.lastScheduled <;> simp
  have e1 : factorPriority { stats with averageSpacingDays := none } = factorPriority stats := rfl
  have e2 : factorRecency slot { stats with averageSpacingDays := none } =
      factorRecency slot stats := rfl
  have e5 : factorTimeOfDay slot { stats with averageSpacingDays := none } =
      factorTimeOfDay slot stats := rfl
  have e1z : factorPriority { stats with averageSpacingDays := some 0 } =
      factorPriority stats := rfl
  have e2z : factorRecency slot { stats with averageSpacingDays := some 0 } =
      factorRecency slot stats := rfl
  have e5z : factorTimeOfDay slot { stats with averageSpacingDays := some 0 } =
      factorTimeOfDay slot stats := rfl
  refine ⟨⟨?_, ?_⟩, ?_, ?_⟩
  · rw [scoreTimeSlot_score_eq, scoreTimeSlot_score_eq, hs1, hs0, e1, e2, e5]
    ring
  · rw [scoreTimeSlot_reasons_eq, hs1]
    simp only [List.mem_append]
    constructor
    · intro h
      rcases h with ((((((h | h) | h) | h) | h) | h) | h)
      · exact absurd h (by unfold factorPriority; split_ifs <;> simp)
      · exact absurd h (by unfold factorRecency; rcases stats.lastScheduled <;> dsimp only <;>
          first | (split_ifs <;> simp) | simp)
      · revert h
        split_ifs with hc
        · intro h
          exact hc
        · intro h
          simp at h
      · exact absurd h (by unfold factorLoad; dsimp only; simp; split_ifs <;> simp)
      · exact absurd h (by unfold factorTimeOfDay; dsimp only; split_ifs <;> simp)
      · exact absurd h (by unfold factorUrgency; simp)
      · exact absurd h (by unfold factorBuffer; dsimp only; split_ifs <;> simp)
    · intro hc
      rw [if_pos hc]
      simp
  · rw [scoreTimeSlot_score_eq, scoreTimeSlot_score_eq, hz, hs0, e1, e2, e5, e1z, e2z, e5z]
  · rw [scoreTimeSlot_reasons_eq, scoreTimeSlot_reasons_eq, hz, hs0, e1, e2, e5, e1z, e2z, e5z]

/-- C7 amended witness: concrete statistics with a nonzero average spacing
(2 days) and a zero-average variant. -/
theorem scoreTimeSlot_spacing_truthiness_amended_witness :
    ((scoreTimeSlot slotC7 { statsC7 with averageSpacingDays := some 2 } [] 0).score =
        (scoreTimeSlot slotC7 { statsC7 with averageSpacingDays := none } [] 0).score +
          max 0 (30 - qabs (daysBetween 0 slotC7.start - 2) * 5)
      ∧ (Reason.usualSpacingPattern 2 ∈
            (scoreTimeSlot slotC7 { statsC7 with averageSpacingDays := some 2 } [] 0).reasons ↔
          qabs (daysBetween 0 slotC7.start - 2) < 1/2))
    ∧ (scoreTimeSlot slotC7 { statsC7 with averageSpacingDays := some 0 } [] 0).score =
        (scoreTimeSlot slotC7 { statsC7 with averageSpacingDays := none } [] 0).score
    ∧ (scoreTimeSlot slotC7 { statsC7 with averageSpacingDays := some 0 } [] 0).reasons =
        (scoreTimeSlot slotC7 { statsC7 with averageSpacingDays := none } [] 0).reasons :=
  scoreTimeSlot_spacing_truthiness_amended slotC7
    { statsC7 with averageSpacingDays := some 2 } [] 0 2 0 rfl rfl (by norm_num)

/-- C8 counterexample: a request with lookahead horizon 0 (≤ 0) and an
otherwise valid store is NOT rejected with a ValidationError — the handler
only validates `duration`, proceeds, generates zero candidates, and
returns the normal empty-suggestions response. -/
theorem getSuggestions_horizon_not_validated_cex :
    getSuggestions (some "t1") 60 0 5
      [{ id := "t1", name := "Deep Work", category := "work", priority := 5 }] [] [] 0 =
      .ok { suggestions := [], noSlotsMessage := true, typeStatsSummary := none } := by
  decide

/-- C8 amended: `getSuggestions` defensively rejects a duration outside
(0, 480] with a ValidationError, but a lookahead horizon ≤ 0 is NOT
rejected: such a request proceeds (here shown when the type resolves) and
yields the ordinary empty-suggestion response. -/
theorem getSuggestions_defensive_validation_amended :
    ∀ (tid : String) (duration daysAhead limit : Int)
      (types : List SessionTypeRec) (sessions : List SessionRec)
      (windows : List AvailabilityWindow) (now : Int),
    ((duration ≤ 0 ∨ 480 < duration) →
      getSuggestions (some tid) duration daysAhead limit types sessions windows now =
        .error (.validation .durationOutOfRange))
    ∧ (daysAhead ≤ 0 → 0 < duration → duration ≤ 480 →
        ∀ st, getSessionTypeStats types sessions tid now = .ok st →
        getSuggestions (some tid) duration daysAhead limit types sessions windows now =
          .ok { suggestions := [], noSlotsMessage := true, typeStatsSummary := none }) := by
  intro tid duration daysAhead limit types sessions windows now
  constructor
  · intro h
    rw [getSuggestions, if_pos h]
  · intro hday hd1 hd2 st hstats
    have hgen : generateCandidateSlots windows now daysAhead duration = [] := by
      rw [generateCandidateSlots]
      have hz : daysAhead.toNat = 0 := by omega
      rw [hz]
      rfl
    rw [getSuggestions, if_neg (by omega), hstats]
    dsimp only
    rw [hgen]
    rfl

/-- C8 amended witness: duration 0 is rejected; horizon 0 with duration 60
is not. -/
theorem getSuggestions_defensive_validation_amended_witness :
    getSuggestions (some "t1") 0 7 5 [] [] [] 0 = .error (.validation .durationOutOfRange)
    ∧ getSuggestions (some "t1") 60 0 5
        [{ id := "t1", name := "Deep Work", category := "work", priority := 5 }] [] [] 0 =
        .ok { suggestions := [], noSlotsMessage := true, typeStatsSummary := none } :=
  ⟨(getSuggestions_defensive_validation_amended "t1" 0 7 5 [] [] [] 0).1 (Or.inl (by decide)),
   (getSuggestions_defensive_validation_amended "t1" 60 0 5
      [{ id := "t1", name := "Deep Work", category := "work", priority := 5 }] [] [] 0).2
     (by decide) (by decide) (by decide)
     { id := "t1", name := "Deep Work", category := "work", priority := 5,
       lastScheduled := none, upcomingCount := 0, completedCount := 0,
       averageSpacingDays := none } (by decide)⟩

/-- C10: the session update handler performs no conflict check whatever:
whenever the target session exists and the provided fields are
well-formed, the update succeeds — even under the explicit hypothesis that
the conflict detector (invoked with its `excludeSessionId` parameter, the
intended update-in-place form the handler never calls) reports the
session's new interval as conflicting with another existing session. -/
theorem putSession_no_conflict_check :
    ∀ (sessions : List SessionRec) (id : String) (body : UpdateBody) (existing : SessionRec),
    sessions.find? (fun s => decide (s.id = id)) = some existing →
    body.duration.all (fun d => decide (0 < d)) = true →
    (checkConflicts sessions (body.scheduledAt.getD existing.scheduledAt)
        (body.duration.getD existing.duration) (some id)).1 = true →
    ∃ result, putSession sessions id body = .ok result
      ∧ result.1.scheduledAt = body.scheduledAt.getD existing.scheduledAt
      ∧ result.1.duration = body.duration.getD existing.duration
      ∧ result.1.completed = body.completed.getD existing.completed := by
  intro sessions id body existing hfind hdur hconf
  rw [putSession, hfind]
  dsimp only
  have hany : body.duration.any (fun d => decide (d ≤ 0)) = false := by
    cases hb : body.duration with
    | none => rfl
    | some d =>
      rw [hb] at hdur
      simp at hdur ⊢
      omega
  rw [if_neg (by simp [hany])]
  exact ⟨_, rfl, rfl, rfl, rfl⟩

/-- C10 witness: rescheduling session "a" exactly on top of session "b"
(conflict reported by `checkConflicts` excluding "a") still succeeds. -/
theorem putSession_no_conflict_check_witness :
    ∃ result,
      putSession
        [{ id := "a", typeId := "t", scheduledAt := 0, duration := 60, completed := false,
           priority := 3, typeName := "T" },
         { id := "b", typeId := "t", scheduledAt := 7200000, duration := 60, completed := false,
           priority := 3, typeName := "T" }] "a"
        { completed := none, scheduledAt := some 7200000, duration := some 60 } = .ok result
      ∧ result.1.scheduledAt = (some (7200000 : Int)).getD 0
      ∧ result.1.duration = (some (60 : Int)).getD 60
      ∧ result.1.completed = (none : Option Bool).getD false :=
  putSession_no_conflict_check
    [{ id := "a", typeId := "t", scheduledAt := 0, duration := 60, completed := false,
       priority := 3, typeName := "T" },
     { id := "b", typeId := "t", scheduledAt := 7200000, duration := 60, completed := false,
       priority := 3, typeName := "T" }] "a"
    { completed := none, scheduledAt := some 7200000, duration := some 60 }
    { id := "a", typeId := "t", scheduledAt := 0, duration := 60, completed := false,
      priority := 3, typeName := "T" }
    (by decide) (by decide) (by decide)

end SSP
